import Mathlib

/-!
Typed caching facade over a key/value store (`pkg/cache/redis.go`).

Shallow embedding of the facade `Redis` and of the reply type `CustomReply`.

* The underlying `*redis.Client` is a parameter: a `Client σ` answers the two
  calls the facade makes on it (`Do` and `Expire`) from a state `σ`.  Every
  call is recorded, in order, in the `sent` trace of the connection, so that
  "which directives were issued" is a statement about `Conn.sent`.
* `encoding/json` is a parameter as well: `marshal` and `unmarshal` are passed
  to the typed operations.
* The cancellation context `ctx` is threaded unchanged by every operation of
  the source and is left out.
* The accessors of `*redis.Cmd` that the facade calls (`Err`, `Val`, `Text`,
  `Result`, `String`) follow go-redis v8.
-/

namespace Cache

/-! ## Durations (`time.Duration`: a count of nanoseconds) -/

abbrev Duration := Int

def Second : Duration := 1000000000
def Minute : Duration := 60 * Second
def Hour : Duration := 60 * Minute

/-! ## Errors and values -/

/-- Go `error` values met by the facade. -/
inductive Error where
  /-- The value `redis.Nil`, the not-found reply of the client library. -/
  | redisNil
  /-- An error built by `fmt.Errorf`, identified by its text. -/
  | errorf (msg : String)
  /-- An error raised by a collaborator (transport, server, codec). -/
  | raised (msg : String)
deriving DecidableEq, Repr

/-- Source: `var ErrNil = redis.Nil` -/
def ErrNil : Error := Error.redisNil

/-- Source: `var ErrEmpty = fmt.Errorf("redis value empty")` -/
def ErrEmpty : Error := Error.errorf "redis value empty"

/-- Source: `const ErrorFailedConnect = "Failed to connect to redis %s. Error: %s"`,
applied to its two operands. -/
def ErrorFailedConnect (client reason : String) : String :=
  "Failed to connect to redis " ++ client ++ ". Error: " ++ reason

/-- The text of an error (`err.Error()`). -/
def Error.text : Error → String
  | Error.redisNil => "redis: nil"
  | Error.errorf msg => msg
  | Error.raised msg => msg

/-- Go `interface{}` values exchanged with the client: command arguments and
reply values. `list` is a `[]interface{}` held as ONE value. -/
inductive Value where
  | nil
  | str (s : String)
  | int (n : Int)
  | list (xs : List Value)

mutual
/-- What `fmt.Sprint` prints for one value. -/
def Value.sprint : Value → String
  | Value.nil => "<nil>"
  | Value.str s => s
  | Value.int n => toString n
  | Value.list xs => "[" ++ Value.sprintAll xs ++ "]"
/-- The elements of a slice as `fmt.Sprint` prints them, separated by blanks. -/
def Value.sprintAll : List Value → String
  | [] => ""
  | [x] => Value.sprint x
  | x :: y :: rest => Value.sprint x ++ " " ++ Value.sprintAll (y :: rest)
end

/-- The Go type name printed by `%T`. -/
def Value.typeName : Value → String
  | Value.nil => "<nil>"
  | Value.str _ => "string"
  | Value.int _ => "int64"
  | Value.list _ => "[]interface \x7b\x7d"

/-! ## `*redis.Cmd` (go-redis v8) -/

/-- The outcome of one generic command: its arguments, its error, its value. -/
structure Cmd where
  args : List Value
  err : Option Error
  val : Value

def Cmd.Err (cmd : Cmd) : Option Error := cmd.err

def Cmd.Val (cmd : Cmd) : Value := cmd.val

def Cmd.Result (cmd : Cmd) : Value × Option Error := (cmd.val, cmd.err)

/-- The helper `toString` of go-redis: only a `string` value renders as text. -/
def valueToString (val : Value) : String × Option Error :=
  match val with
  | Value.str s => (s, none)
  | v => ("", some (Error.raised ("redis: unexpected type=" ++ v.typeName ++ " for String")))

/-- Method `(*Cmd).Text` of go-redis: the error if there is one, else the value as a string. -/
def Cmd.Text (cmd : Cmd) : String × Option Error :=
  match cmd.err with
  | some e => ("", some e)
  | none => valueToString cmd.val

/-- Function `internal.AppendArg` of go-redis: one argument as it is printed in a command line. -/
def appendArg (v : Value) : String :=
  match v with
  | Value.nil => "<nil>"
  | Value.str s => s
  | Value.int n => toString n
  | Value.list xs => Value.sprint (Value.list xs)

/-- The arguments of a command separated by blanks, as `cmdString` prints
them. -/
def argsLine : List Value → String
  | [] => ""
  | [x] => appendArg x
  | x :: y :: rest => appendArg x ++ " " ++ argsLine (y :: rest)

/-- Method `(*Cmd).String` of go-redis (`cmdString`): the command line, followed by `: ` and the
error text when the command failed, or by `: ` and the value when there is
one. -/
def Cmd.String (cmd : Cmd) : String :=
  match cmd.err, cmd.val with
  | some e, _ => argsLine cmd.args ++ ": " ++ e.text
  | none, Value.nil => argsLine cmd.args
  | none, v => argsLine cmd.args ++ ": " ++ appendArg v

/-! ## The underlying client -/

/-- One call made on the underlying client. -/
inductive Directive where
  /-- A call `client.Do(ctx, args...)`. -/
  | cmd (args : List Value)
  /-- A call `client.Expire(ctx, key, expiration)`. -/
  | expire (key : String) (expiration : Duration)

/-- The underlying `*redis.Client` together with the server behind it: how a
call is answered from a state `σ`, and how the client prints under `%s`. -/
structure Client (σ : Type) where
  /-- The answer to `Do(ctx, args...)`: error and value of the `*Cmd`. -/
  answer : σ → List Value → (Option Error × Value) × σ
  /-- The answer to `Expire(ctx, key, d)`: error and value of the `*BoolCmd`. -/
  answerExpire : σ → String → Duration → (Option Error × Bool) × σ
  /-- The client printed by `%s`. -/
  name : String

/-- A connection: the state behind the client and the calls made so far. -/
structure Conn (σ : Type) where
  state : σ
  sent : List Directive

/-- Method `(*redis.Client).Do`: the call is recorded and answered. -/
def Client.Do {σ : Type} (cl : Client σ) (c : Conn σ) (args : List Value) : Cmd × Conn σ :=
  let out := cl.answer c.state args
  ({ args := args, err := out.1.1, val := out.1.2 },
   { state := out.2, sent := c.sent ++ [Directive.cmd args] })

/-- Method `(*redis.Client).Expire`: the call is recorded and answered; the
result is the error and the value of the `*BoolCmd`. -/
def Client.Expire {σ : Type} (cl : Client σ) (c : Conn σ) (key : String) (d : Duration) :
    (Option Error × Bool) × Conn σ :=
  let out := cl.answerExpire c.state key d
  (out.1, { state := out.2, sent := c.sent ++ [Directive.expire key d] })

/-! ## `Reply` and `CustomReply` -/

/-- Source: `type CustomReply struct` -/
structure CustomReply where
  err : Option Error
  rawResult : String
  val : Value

def CustomReply.Err (r : CustomReply) : Option Error := r.err

def CustomReply.Val (r : CustomReply) : Value := r.val

/-- Source: `return fmt.Sprint(r.val), nil` -/
def CustomReply.Text (r : CustomReply) : String × Option Error := (Value.sprint r.val, none)

def CustomReply.Result (r : CustomReply) : Value × Option Error := (r.val, r.err)

/-- The two implementations of the interface `Reply` that the facade hands
out: a `*redis.Cmd` and a `*CustomReply`. -/
inductive Reply where
  | native (cmd : Cmd)
  | custom (r : CustomReply)

def Reply.Err : Reply → Option Error
  | Reply.native cmd => cmd.Err
  | Reply.custom r => r.Err

def Reply.Val : Reply → Value
  | Reply.native cmd => cmd.Val
  | Reply.custom r => r.Val

def Reply.Text : Reply → String × Option Error
  | Reply.native cmd => cmd.Text
  | Reply.custom r => r.Text

def Reply.Result : Reply → Value × Option Error
  | Reply.native cmd => cmd.Result
  | Reply.custom r => r.Result

/-! ## The facade `Redis` -/

/-- Source: `func (r *Redis) Do`: `r.cache.Do(ctx, command, args)`; the variadic
`args` is passed on as one value. -/
def Redis.Do {σ : Type} (cl : Client σ) (c : Conn σ) (command : String) (args : List Value) :
    Reply × Conn σ :=
  let r := cl.Do c [Value.str command, Value.list args]
  (Reply.native r.1, r.2)

/-- Source: `func (r *Redis) Ping`. -/
def Redis.Ping {σ : Type} (cl : Client σ) (c : Conn σ) : Option Error × Conn σ :=
  let r := cl.Do c [Value.str "PING"]
  let res := r.1.String
  if res ≠ "PONG" then
    (some (Error.errorf (ErrorFailedConnect cl.name "unable to ping redis server")), r.2)
  else
    (none, r.2)

/-- Source: `func (r *Redis) Get`. -/
def Redis.Get {σ : Type} (cl : Client σ) (c : Conn σ) (key : String) : Reply × Conn σ :=
  let r := cl.Do c [Value.str "GET", Value.str key]
  (Reply.native r.1, r.2)

/-- Source: `func (r *Redis) GetStruct`; `unmarshal` is `json.Unmarshal`, which returns
its error and the destination as it left it. -/
def Redis.GetStruct {σ D : Type} (cl : Client σ) (unmarshal : String → D → Option Error × D)
    (c : Conn σ) (key : String) (res : D) : (Option Error × D) × Conn σ :=
  let r := Redis.Get cl c key
  match r.1.Text with
  | (_, some err) => ((some err, res), r.2)
  | (val, none) =>
    match unmarshal val res with
    | (some err, res1) => ((some err, res1), r.2)
    | (none, res1) => ((none, res1), r.2)

/-- Source: `func (r *Redis) Set`. -/
def Redis.Set {σ : Type} (cl : Client σ) (c : Conn σ) (key val : String) : Reply × Conn σ :=
  let reply := cl.Do c [Value.str "SET", Value.str key, Value.str val]
  let e := cl.Expire reply.2 key (15 * Hour)
  (Reply.native reply.1, e.2)

/-- Source: `func (r *Redis) SetWithExpire`. -/
def Redis.SetWithExpire {σ : Type} (cl : Client σ) (c : Conn σ) (key val : String)
    (expire : Duration) : Reply × Conn σ :=
  let reply := cl.Do c [Value.str "SET", Value.str key, Value.str val]
  let e := cl.Expire reply.2 key expire
  (Reply.native reply.1, e.2)

/-- Source: `func (r *Redis) serializer`; `marshal` is `json.Marshal`. The second
component is `none` for the nil `Reply`. -/
def Redis.serializer {V : Type} (marshal : V → Except Error String) (val : V) :
    String × Option Reply :=
  match marshal val with
  | Except.error err =>
    ("", some (Reply.custom { err := some err, rawResult := "", val := Value.nil }))
  | Except.ok valSerialized => (valSerialized, none)

/-- Source: `func (r *Redis) SetStruct`. -/
def Redis.SetStruct {σ V : Type} (cl : Client σ) (marshal : V → Except Error String)
    (c : Conn σ) (key : String) (val : V) : Reply × Conn σ :=
  match Redis.serializer marshal val with
  | (_, some reply) => (reply, c)
  | (res, none) => Redis.Set cl c key res

/-- Source: `func (r *Redis) SetStructWithExpire`. -/
def Redis.SetStructWithExpire {σ V : Type} (cl : Client σ) (marshal : V → Except Error String)
    (c : Conn σ) (key : String) (val : V) (expire : Duration) : Reply × Conn σ :=
  match Redis.serializer marshal val with
  | (_, some reply) => (reply, c)
  | (res, none) => Redis.SetWithExpire cl c key res expire

/-! ## A reference store

A deterministic store behind the client, used to run the facade: `SET`
records a payload, `GET` returns it or reports `redis.Nil`, `PING` answers
`PONG`, and an expiration with a positive horizon is recorded on a present
key, while one with a zero or negative horizon removes the key.  No time
elapses between two calls. -/

/-- One key of the store: its payload and the horizon assigned to it. -/
structure Entry where
  key : String
  payload : String
  horizon : Option Duration
deriving DecidableEq, Repr

abbrev Store := List Entry

/-- The payload held at `key`, if any. -/
def Store.lookup : Store → String → Option String
  | [], _ => none
  | e :: rest, key => if e.key = key then some e.payload else Store.lookup rest key

/-- The store without `key`. -/
def Store.remove : Store → String → Store
  | [], _ => []
  | e :: rest, key => if e.key = key then Store.remove rest key else e :: Store.remove rest key

/-- The store after `SET key val`: the payload is replaced and no horizon is
kept. -/
def Store.put (s : Store) (key val : String) : Store :=
  { key := key, payload := val, horizon := none } :: Store.remove s key

/-- The store after an expiration of `key` with horizon `d`, and whether a
key was there. -/
def Store.expireKey (s : Store) (key : String) (d : Duration) : Bool × Store :=
  match Store.lookup s key with
  | none => (false, s)
  | some v =>
    if 0 < d then (true, { key := key, payload := v, horizon := some d } :: Store.remove s key)
    else (true, Store.remove s key)

/-- Whether a value is a slice, which the client cannot write as an argument. -/
def Value.isSlice : Value → Bool
  | Value.list _ => true
  | _ => false

/-- How the reference store answers a generic command: `PING`, `GET key` and
`SET key val` are served, a command with a slice among its arguments fails in
the client, anything else is unknown to the store. -/
def Store.answer (s : Store) (args : List Value) : (Option Error × Value) × Store :=
  match args with
  | [Value.str command] =>
    if command = "PING" then ((none, Value.str "PONG"), s)
    else ((some (Error.raised "ERR unknown command"), Value.nil), s)
  | [Value.str command, Value.str key] =>
    if command = "GET" then
      match Store.lookup s key with
      | some v => ((none, Value.str v), s)
      | none => ((some Error.redisNil, Value.nil), s)
    else ((some (Error.raised "ERR unknown command"), Value.nil), s)
  | [Value.str command, Value.str key, Value.str val] =>
    if command = "SET" then ((none, Value.str "OK"), Store.put s key val)
    else ((some (Error.raised "ERR unknown command"), Value.nil), s)
  | _ =>
    if args.any Value.isSlice then
      ((some (Error.raised
        "redis: can't marshal []interface \x7b\x7d (implement encoding.BinaryMarshaler)"),
        Value.nil), s)
    else ((some (Error.raised "ERR unknown command"), Value.nil), s)

/-- The client in front of the reference store. -/
def storeClient : Client Store where
  answer := Store.answer
  answerExpire := fun s key d => ((none, (Store.expireKey s key d).1), (Store.expireKey s key d).2)
  name := "Redis<localhost:6379 db:0>"

/-- A client whose writes succeed and whose expiration directive fails. -/
def expireFailingClient : Client Store where
  answer := Store.answer
  answerExpire := fun s _ _ => ((some (Error.raised "connection refused"), false), s)
  name := "Redis<localhost:6379 db:0>"

/-- A fresh connection over a store. -/
def Conn.fresh (s : Store) : Conn Store := { state := s, sent := [] }

/-! ## The demonstration record (`main.go`) and a codec for it

The typed operations take the codec as a parameter.  `Dummy.marshal` and
`Dummy.unmarshal` are one codec, on which the facade is run below: the JSON
object of a `Dummy` whose strings need no escaping, and a reader of exactly
that object. -/

/-- Source: `type Dummy struct` of `main.go`. -/
structure Dummy where
  UserID : Int
  Username : String
  Password : String
deriving DecidableEq, Repr

/-- Source: `user` of `main.go`. -/
def user : Dummy := { UserID := 1, Username := "test-user", Password := "test-password" }

/-- Source: `sessionKey` of `main.go`. -/
def sessionKey : String := "session:mock-key-session-1"

/-- The JSON object that encodes a `Dummy`, fields in declaration order under
their `json` names. Strings are written between quotes as they are, which is
the encoding of a string without quotes, backslashes, control or escaped
characters. -/
def Dummy.marshal (d : Dummy) : Except Error String :=
  Except.ok ("\x7b\"user_id\":" ++ toString d.UserID ++ ",\"username\":\"" ++ d.Username
    ++ "\",\"password\":\"" ++ d.Password ++ "\"\x7d")

/-- Reads the expected characters off the front of the input. -/
def expectChars : List Char → List Char → Option (List Char)
  | [], rest => some rest
  | _ :: _, [] => none
  | c :: cs, x :: xs => if c = x then expectChars cs xs else none

/-- Splits the input at its first non-digit. -/
def readDigits : List Char → List Char × List Char
  | [] => ([], [])
  | c :: cs =>
    if c.isDigit then ((c :: (readDigits cs).1), (readDigits cs).2) else ([], c :: cs)

/-- The number written by a list of decimal digits. -/
def digitsValue (ds : List Char) : Nat :=
  ds.foldl (fun n c => 10 * n + (c.toNat - 48)) 0

/-- Reads a decimal integer with an optional minus sign. -/
def readInt (cs : List Char) : Option (Int × List Char) :=
  match cs with
  | [] => none
  | c :: rest =>
    if c = '-' then
      match readDigits rest with
      | ([], _) => none
      | (ds, tail) => some (-(digitsValue ds : Int), tail)
    else
      match readDigits (c :: rest) with
      | ([], _) => none
      | (ds, tail) => some ((digitsValue ds : Int), tail)

/-- Reads the characters up to the closing quote. -/
def readText : List Char → Option (List Char × List Char)
  | [] => none
  | c :: cs =>
    if c = '"' then some ([], cs)
    else match readText cs with
      | none => none
      | some (t, rest) => some (c :: t, rest)

/-- Reads the JSON object written by `Dummy.marshal`. -/
def Dummy.read (cs : List Char) : Option Dummy :=
  match expectChars "\x7b\"user_id\":".data cs with
  | none => none
  | some cs1 =>
    match readInt cs1 with
    | none => none
    | some (uid, cs2) =>
      match expectChars ",\"username\":\"".data cs2 with
      | none => none
      | some cs3 =>
        match readText cs3 with
        | none => none
        | some (name, cs4) =>
          match expectChars ",\"password\":\"".data cs4 with
          | none => none
          | some cs5 =>
            match readText cs5 with
            | none => none
            | some (pw, cs6) =>
              if cs6 = "\x7d".data then
                some { UserID := uid, Username := String.mk name, Password := String.mk pw }
              else none

/-- A decoder into `Dummy`: the empty input is a syntax error ("unexpected end
of JSON input"), an object written by `Dummy.marshal` fills the three fields,
and any other text is rejected with the destination left as it was. -/
def Dummy.unmarshal (text : String) (dest : Dummy) : Option Error × Dummy :=
  if text = "" then (some (Error.raised "unexpected end of JSON input"), dest)
  else
    match Dummy.read text.data with
    | some d => (none, d)
    | none => (some (Error.raised "invalid character in JSON input"), dest)

/-- Values handed to the typed writes: a record, or a channel, which
`json.Marshal` refuses ("json: unsupported type"). -/
inductive Sample where
  | record (d : Dummy)
  | channel

/-- The encoder on `Sample`. -/
def Sample.marshal : Sample → Except Error String
  | Sample.record d => Dummy.marshal d
  | Sample.channel => Except.error (Error.raised "json: unsupported type: chan int")

/-! ## Facts about the reference store and about the rendering of a command -/

theorem Store.lookup_remove (s : Store) (key : String) :
    Store.lookup (Store.remove s key) key = none := by
  induction s with
  | nil => rfl
  | cons e rest ih =>
    by_cases h : e.key = key
    · simp [Store.remove, h, ih]
    · simp [Store.remove, Store.lookup, h, ih]

theorem Store.lookup_put (s : Store) (key val : String) :
    Store.lookup (Store.put s key val) key = some val := by
  simp [Store.put, Store.lookup]

theorem Store.lookup_put_expireKey (s : Store) (key val : String) (d : Duration) (hd : 0 < d) :
    Store.lookup (Store.expireKey (Store.put s key val) key d).2 key = some val := by
  simp [Store.expireKey, Store.lookup_put, hd, Store.lookup]

theorem fifteen_hours_pos : (0 : Duration) < 15 * Hour := by
  decide

theorem ping_line_ne_pong (s : String) : "PING" ++ s ≠ "PONG" := by
  intro h
  have h2 := congrArg String.data h
  simp at h2

theorem Cmd.String_ping_ne_pong (err : Option Error) (val : Value) :
    Cmd.String { args := [Value.str "PING"], err := err, val := val } ≠ "PONG" := by
  cases err with
  | some e =>
    simp only [Cmd.String, argsLine, appendArg, String.append_assoc]
    exact ping_line_ne_pong _
  | none =>
    cases val <;> simp only [Cmd.String, argsLine, appendArg, String.append_assoc]
    · decide
    all_goals exact ping_line_ne_pong _

/-! ## Typed writes: serialization failure -/

/-- C1: when `json.Marshal` fails on `val` with error `e`, `SetStruct` and
`SetStructWithExpire` return a reply whose `Err()` is `e`, and they call the
underlying client not at all: the connection, that is the state of the store
and the trace of directives sent, is the one they were given. -/
theorem setStruct_marshal_failure_sends_nothing {σ V : Type} (cl : Client σ)
    (marshal : V → Except Error String) (c : Conn σ) (key : String) (val : V)
    (expire : Duration) (e : Error) (h : marshal val = Except.error e) :
    (Redis.SetStruct cl marshal c key val).1.Err = some e ∧
    (Redis.SetStruct cl marshal c key val).2 = c ∧
    (Redis.SetStruct cl marshal c key val).2.sent = c.sent ∧
    (Redis.SetStructWithExpire cl marshal c key val expire).1.Err = some e ∧
    (Redis.SetStructWithExpire cl marshal c key val expire).2 = c ∧
    (Redis.SetStructWithExpire cl marshal c key val expire).2.sent = c.sent := by
  simp [Redis.SetStruct, Redis.SetStructWithExpire, Redis.serializer, h, Reply.Err,
    CustomReply.Err]

/-- C1 at a channel written under `"k"` over a store that holds `"k"`: the
error is reported, nothing is sent, the store keeps its entry. -/
theorem setStruct_marshal_failure_sends_nothing_witness :
    Sample.marshal Sample.channel
      = Except.error (Error.raised "json: unsupported type: chan int") ∧
    ((Redis.SetStruct storeClient Sample.marshal
        (Conn.fresh [{ key := "k", payload := "v", horizon := none }]) "k" Sample.channel).1.Err
      = some (Error.raised "json: unsupported type: chan int") ∧
    (Redis.SetStruct storeClient Sample.marshal
        (Conn.fresh [{ key := "k", payload := "v", horizon := none }]) "k" Sample.channel).2
      = Conn.fresh [{ key := "k", payload := "v", horizon := none }] ∧
    (Redis.SetStruct storeClient Sample.marshal
        (Conn.fresh [{ key := "k", payload := "v", horizon := none }]) "k" Sample.channel).2.sent
      = (Conn.fresh [{ key := "k", payload := "v", horizon := none }]).sent ∧
    (Redis.SetStructWithExpire storeClient Sample.marshal
        (Conn.fresh [{ key := "k", payload := "v", horizon := none }]) "k" Sample.channel
        (30 * Minute)).1.Err
      = some (Error.raised "json: unsupported type: chan int") ∧
    (Redis.SetStructWithExpire storeClient Sample.marshal
        (Conn.fresh [{ key := "k", payload := "v", horizon := none }]) "k" Sample.channel
        (30 * Minute)).2
      = Conn.fresh [{ key := "k", payload := "v", horizon := none }] ∧
    (Redis.SetStructWithExpire storeClient Sample.marshal
        (Conn.fresh [{ key := "k", payload := "v", horizon := none }]) "k" Sample.channel
        (30 * Minute)).2.sent
      = (Conn.fresh [{ key := "k", payload := "v", horizon := none }]).sent) :=
  ⟨rfl, setStruct_marshal_failure_sends_nothing storeClient Sample.marshal
    (Conn.fresh [{ key := "k", payload := "v", horizon := none }]) "k" Sample.channel
    (30 * Minute) (Error.raised "json: unsupported type: chan int") rfl⟩

/-! ## Typed round trip -/

/-- C2: over the reference store, for every key `k` and every record `R`
that the serializer represents (`marshal R` is a payload that `unmarshal`
reads back as `R`), `SetStruct` followed by `GetStruct`, and
`SetStructWithExpire` with a positive horizon followed by `GetStruct`, report
no error and leave the destination equal to `R`. -/
theorem setStruct_getStruct_round_trip {D : Type} (marshal : D → Except Error String)
    (unmarshal : String → D → Option Error × D) (c : Conn Store) (k : String) (R dest : D)
    (payload : String) (d : Duration)
    (hm : marshal R = Except.ok payload) (hu : unmarshal payload dest = (none, R))
    (hd : 0 < d) :
    (Redis.SetStruct storeClient marshal c k R).1.Err = none ∧
    (Redis.GetStruct storeClient unmarshal
      (Redis.SetStruct storeClient marshal c k R).2 k dest).1 = (none, R) ∧
    (Redis.SetStructWithExpire storeClient marshal c k R d).1.Err = none ∧
    (Redis.GetStruct storeClient unmarshal
      (Redis.SetStructWithExpire storeClient marshal c k R d).2 k dest).1 = (none, R) := by
  have h15 := Store.lookup_put_expireKey c.state k payload (15 * Hour) fifteen_hours_pos
  have hd2 := Store.lookup_put_expireKey c.state k payload d hd
  simp [Redis.SetStruct, Redis.SetStructWithExpire, Redis.serializer, hm, Redis.Set,
    Redis.SetWithExpire, Redis.GetStruct, Redis.Get, Client.Do, Client.Expire, storeClient,
    Store.answer, Reply.Err, Reply.Text, Cmd.Err, Cmd.Text, valueToString, h15, hd2, hu]

/-- C2 on the demonstration program: `user` written under `sessionKey` for 30
minutes into an empty store, then read into a zero `Dummy`. -/
theorem setStruct_getStruct_round_trip_witness :
    (Redis.SetStruct storeClient Dummy.marshal (Conn.fresh []) sessionKey user).1.Err = none ∧
    (Redis.GetStruct storeClient Dummy.unmarshal
      (Redis.SetStruct storeClient Dummy.marshal (Conn.fresh []) sessionKey user).2 sessionKey
      { UserID := 0, Username := "", Password := "" }).1 = (none, user) ∧
    (Redis.SetStructWithExpire storeClient Dummy.marshal (Conn.fresh []) sessionKey user
      (30 * Minute)).1.Err = none ∧
    (Redis.GetStruct storeClient Dummy.unmarshal
      (Redis.SetStructWithExpire storeClient Dummy.marshal (Conn.fresh []) sessionKey user
        (30 * Minute)).2 sessionKey
      { UserID := 0, Username := "", Password := "" }).1 = (none, user) :=
  setStruct_getStruct_round_trip Dummy.marshal Dummy.unmarshal (Conn.fresh []) sessionKey user
    { UserID := 0, Username := "", Password := "" }
    "\x7b\"user_id\":1,\"username\":\"test-user\",\"password\":\"test-password\"\x7d"
    (30 * Minute) rfl rfl (by decide)

/-! ## Typed read -/

/-- C3: when the `GET` issued by `GetStruct` carries `redis.Nil`, `GetStruct`
returns exactly `ErrNil` and the destination as it was given, whatever the
decoder is (it is not consulted); `ErrNil` is neither `ErrEmpty` nor an error
raised by the decoder. -/
theorem getStruct_not_found {σ D : Type} (cl : Client σ)
    (unmarshal : String → D → Option Error × D) (c : Conn σ) (key : String) (dest : D)
    (h : (cl.Do c [Value.str "GET", Value.str key]).1.err = some Error.redisNil) :
    Redis.GetStruct cl unmarshal c key dest
      = ((some ErrNil, dest), (cl.Do c [Value.str "GET", Value.str key]).2) ∧
    (∀ other : String → D → Option Error × D,
      Redis.GetStruct cl other c key dest = Redis.GetStruct cl unmarshal c key dest) ∧
    ErrNil ≠ ErrEmpty ∧ (∀ msg : String, ErrNil ≠ Error.raised msg) := by
  have key_fact : ∀ u : String → D → Option Error × D, Redis.GetStruct cl u c key dest
      = ((some ErrNil, dest), (cl.Do c [Value.str "GET", Value.str key]).2) := by
    intro u
    simp [Redis.GetStruct, Redis.Get, Reply.Text, Cmd.Text, h, ErrNil]
  refine ⟨key_fact unmarshal, ?_, ?_, ?_⟩
  · intro other
    rw [key_fact other, key_fact unmarshal]
  · simp [ErrNil, ErrEmpty]
  · intro msg
    simp [ErrNil]

/-- C3 on the empty reference store: reading `"missing"` into `user`. -/
theorem getStruct_not_found_witness :
    (storeClient.Do (Conn.fresh []) [Value.str "GET", Value.str "missing"]).1.err
      = some Error.redisNil ∧
    (Redis.GetStruct storeClient Dummy.unmarshal (Conn.fresh []) "missing" user
      = ((some ErrNil, user),
          (storeClient.Do (Conn.fresh []) [Value.str "GET", Value.str "missing"]).2) ∧
    (∀ other : String → Dummy → Option Error × Dummy,
      Redis.GetStruct storeClient other (Conn.fresh []) "missing" user
        = Redis.GetStruct storeClient Dummy.unmarshal (Conn.fresh []) "missing" user) ∧
    ErrNil ≠ ErrEmpty ∧ (∀ msg : String, ErrNil ≠ Error.raised msg)) :=
  ⟨rfl, getStruct_not_found storeClient Dummy.unmarshal (Conn.fresh []) "missing" user rfl⟩

/-- C4 (what the code does): when the `GET` succeeds with the empty string as
payload, `GetStruct` hands the empty text to the decoder and returns the
decoder's verdict and destination; `ErrEmpty` is not produced by `GetStruct`. -/
theorem getStruct_empty_payload_goes_to_decoder {σ D : Type} (cl : Client σ)
    (unmarshal : String → D → Option Error × D) (c : Conn σ) (key : String) (dest : D)
    (herr : (cl.Do c [Value.str "GET", Value.str key]).1.err = none)
    (hval : (cl.Do c [Value.str "GET", Value.str key]).1.val = Value.str "") :
    Redis.GetStruct cl unmarshal c key dest
      = (unmarshal "" dest, (cl.Do c [Value.str "GET", Value.str key]).2) := by
  simp only [Redis.GetStruct, Redis.Get, Reply.Text, Cmd.Text, herr, hval, valueToString]
  rcases hres : unmarshal "" dest with ⟨e, d⟩
  cases e <;> rfl

/-- C4 at the key `"k"` holding the empty payload: the decoder's syntax error
comes back, and it is not `ErrEmpty`. -/
theorem getStruct_empty_payload_goes_to_decoder_witness :
    (Redis.GetStruct storeClient Dummy.unmarshal
        (Conn.fresh [{ key := "k", payload := "", horizon := none }]) "k" user).1
      = (some (Error.raised "unexpected end of JSON input"), user) ∧
    (Redis.GetStruct storeClient Dummy.unmarshal
        (Conn.fresh [{ key := "k", payload := "", horizon := none }]) "k" user).1.1
      ≠ some ErrEmpty :=
  have h := getStruct_empty_payload_goes_to_decoder storeClient Dummy.unmarshal
    (Conn.fresh [{ key := "k", payload := "", horizon := none }]) "k" user rfl rfl
  ⟨by rw [h]; rfl, by rw [h]; decide⟩

/-! ## The synthetic reply -/

/-- C5 (what the code does): the reply that `serializer` builds on an encoding
failure `e` has `Err() = e`, `Val() = nil` and `Result() = (nil, e)`, and its
`Text()` is the four characters `<nil>` together with a nil error. -/
theorem serializer_failure_reply_accessors {V : Type} (marshal : V → Except Error String)
    (val : V) (e : Error) (h : marshal val = Except.error e) :
    ∃ reply : Reply, Redis.serializer marshal val = ("", some reply) ∧
      reply.Err = some e ∧ reply.Val = Value.nil ∧ reply.Result = (Value.nil, some e) ∧
      reply.Text = ("<nil>", none) ∧ reply.Text.1 ≠ "" := by
  refine ⟨Reply.custom { err := some e, rawResult := "", val := Value.nil }, ?_⟩
  simp [Redis.serializer, h, Reply.Err, Reply.Val, Reply.Result, Reply.Text, CustomReply.Err,
    CustomReply.Val, CustomReply.Result, CustomReply.Text, Value.sprint]

/-- C5 at a channel. -/
theorem serializer_failure_reply_accessors_witness :
    ∃ reply : Reply, Redis.serializer Sample.marshal Sample.channel = ("", some reply) ∧
      reply.Err = some (Error.raised "json: unsupported type: chan int") ∧
      reply.Val = Value.nil ∧
      reply.Result = (Value.nil, some (Error.raised "json: unsupported type: chan int")) ∧
      reply.Text = ("<nil>", none) ∧ reply.Text.1 ≠ "" :=
  serializer_failure_reply_accessors Sample.marshal Sample.channel
    (Error.raised "json: unsupported type: chan int") rfl

/-! ## Text writes -/

/-- C6: `Set` sends exactly two directives, the write `SET key val` and then
the expiration of `key` with a horizon of 15 hours (54000 seconds), and
returns the reply of the write; it is `SetWithExpire` at 15 hours, reply and
connection alike. -/
theorem set_is_setWithExpire_fifteen_hours {σ : Type} (cl : Client σ) (c : Conn σ)
    (key val : String) :
    (Redis.Set cl c key val).2.sent
      = c.sent ++ [Directive.cmd [Value.str "SET", Value.str key, Value.str val],
                   Directive.expire key (15 * Hour)] ∧
    15 * Hour = 54000 * Second ∧
    (Redis.Set cl c key val).1
      = Reply.native (cl.Do c [Value.str "SET", Value.str key, Value.str val]).1 ∧
    Redis.Set cl c key val = Redis.SetWithExpire cl c key val (15 * Hour) := by
  refine ⟨?_, by decide, rfl, rfl⟩
  simp [Redis.Set, Client.Do, Client.Expire]

/-- C7 fails: `SetWithExpire` with a zero horizon on a fresh connection sends
the write and then the expiration directive, not the write alone. -/
theorem setWithExpire_zero_horizon_counterexample :
    (Redis.SetWithExpire storeClient (Conn.fresh []) "k" "v" 0).2.sent
        = [Directive.cmd [Value.str "SET", Value.str "k", Value.str "v"],
           Directive.expire "k" 0] ∧
    (Redis.SetWithExpire storeClient (Conn.fresh []) "k" "v" 0).2.sent
        ≠ [Directive.cmd [Value.str "SET", Value.str "k", Value.str "v"]] := by
  constructor
  · rfl
  · simp [Redis.SetWithExpire, Client.Do, Client.Expire, Conn.fresh]

/-- C7 as amended: for every horizon `d`, zero and negative ones included,
`SetWithExpire` sends the write `SET key val` and then the expiration of `key`
with horizon `d`, and so does `SetStructWithExpire` on a record that encodes to
`payload`, with `payload` as the value written. -/
theorem setWithExpire_sends_write_then_expiration {σ V : Type} (cl : Client σ)
    (marshal : V → Except Error String) (c : Conn σ) (key val : String) (R : V)
    (payload : String) (d : Duration) (hm : marshal R = Except.ok payload) :
    (Redis.SetWithExpire cl c key val d).2.sent
      = c.sent ++ [Directive.cmd [Value.str "SET", Value.str key, Value.str val],
                   Directive.expire key d] ∧
    (Redis.SetStructWithExpire cl marshal c key R d).2.sent
      = c.sent ++ [Directive.cmd [Value.str "SET", Value.str key, Value.str payload],
                   Directive.expire key d] := by
  simp [Redis.SetStructWithExpire, Redis.serializer, hm, Redis.SetWithExpire, Client.Do,
    Client.Expire]

/-- C7 as amended, at the horizon of minus one second. -/
theorem setWithExpire_sends_write_then_expiration_witness :
    (Redis.SetWithExpire storeClient (Conn.fresh []) "k" "v" (-Second)).2.sent
      = (Conn.fresh []).sent ++ [Directive.cmd [Value.str "SET", Value.str "k", Value.str "v"],
                   Directive.expire "k" (-Second)] ∧
    (Redis.SetStructWithExpire storeClient Dummy.marshal (Conn.fresh []) "k" user
        (-Second)).2.sent
      = (Conn.fresh []).sent ++ [Directive.cmd [Value.str "SET", Value.str "k", Value.str
          "\x7b\"user_id\":1,\"username\":\"test-user\",\"password\":\"test-password\"\x7d"],
                   Directive.expire "k" (-Second)] :=
  setWithExpire_sends_write_then_expiration storeClient Dummy.marshal (Conn.fresh []) "k" "v"
    user "\x7b\"user_id\":1,\"username\":\"test-user\",\"password\":\"test-password\"\x7d"
    (-Second) rfl

/-- C8 fails: over a client whose expiration directive fails, the directive
issued by `Set` after the write reports an error, and the reply that `Set`
returns has a nil `Err()`. -/
theorem set_expire_failure_counterexample :
    (expireFailingClient.Expire
        (expireFailingClient.Do (Conn.fresh [])
          [Value.str "SET", Value.str "k", Value.str "v"]).2 "k" (15 * Hour)).1.1
      = some (Error.raised "connection refused") ∧
    (Redis.Set expireFailingClient (Conn.fresh []) "k" "v").1.Err = none ∧
    (Redis.SetWithExpire expireFailingClient (Conn.fresh []) "k" "v" Minute).1.Err = none :=
  ⟨rfl, rfl, rfl⟩

/-- C8 as amended: the reply of `Set` and of `SetWithExpire` is the reply of
the `SET` write, so its `Err()` is the error of the write, non-nil exactly when
the write failed; the answer to the expiration directive has no part in it. -/
theorem set_reply_reports_the_write {σ : Type} (cl : Client σ) (c : Conn σ)
    (key val : String) (d : Duration) :
    (Redis.Set cl c key val).1.Err
      = (cl.Do c [Value.str "SET", Value.str key, Value.str val]).1.err ∧
    (Redis.SetWithExpire cl c key val d).1.Err
      = (cl.Do c [Value.str "SET", Value.str key, Value.str val]).1.err ∧
    (∀ e : Error, (cl.Do c [Value.str "SET", Value.str key, Value.str val]).1.err = some e →
      (Redis.Set cl c key val).1.Err ≠ none ∧
      (Redis.SetWithExpire cl c key val d).1.Err ≠ none) := by
  refine ⟨rfl, rfl, ?_⟩
  intro e he
  simp [Redis.Set, Redis.SetWithExpire, Reply.Err, Cmd.Err, he]

/-! ## Passthrough and liveness -/

/-- C9 (what the code does): `Do` hands the client a list of two arguments,
the command name and the whole argument slice as one value, and returns the
client's reply; for `Do(ctx, "GET", "k")` that list is not `["GET", "k"]`,
the list that `Get` sends, and the reference store rejects it. -/
theorem do_hands_the_slice_as_one_argument :
    (∀ (σ : Type) (cl : Client σ) (c : Conn σ) (command : String) (args : List Value),
      (Redis.Do cl c command args).2.sent
        = c.sent ++ [Directive.cmd [Value.str command, Value.list args]] ∧
      [Value.str command, Value.list args].length = 2 ∧
      (Redis.Do cl c command args).1
        = Reply.native (cl.Do c [Value.str command, Value.list args]).1) ∧
    (Redis.Do storeClient (Conn.fresh [{ key := "k", payload := "v", horizon := none }])
        "GET" [Value.str "k"]).2.sent
      ≠ [Directive.cmd [Value.str "GET", Value.str "k"]] ∧
    (Redis.Get storeClient (Conn.fresh [{ key := "k", payload := "v", horizon := none }])
        "k").2.sent
      = [Directive.cmd [Value.str "GET", Value.str "k"]] ∧
    (Redis.Do storeClient (Conn.fresh [{ key := "k", payload := "v", horizon := none }])
        "GET" [Value.str "k"]).1.Err ≠ none ∧
    (Redis.Get storeClient (Conn.fresh [{ key := "k", payload := "v", horizon := none }])
        "k").1.Text = ("v", none) := by
  refine ⟨?_, ?_, rfl, ?_, rfl⟩
  · intro σ cl c command args
    exact ⟨rfl, rfl, rfl⟩
  · simp [Redis.Do, Client.Do, Conn.fresh]
  · simp [Redis.Do, Client.Do, Conn.fresh, storeClient, Store.answer, Reply.Err, Cmd.Err,
      Value.isSlice]

/-- C10 (what the code does): `Ping` sends the one probe `PING` and returns
the connectivity error built from `ErrorFailedConnect` whatever the answer is,
because the text it compares with `PONG` is the rendering of the whole command;
over the reference store, which answers `PONG`, that text is `PING: PONG`. -/
theorem ping_always_reports_failure :
    (∀ (σ : Type) (cl : Client σ) (c : Conn σ),
      (Redis.Ping cl c).1
        = some (Error.errorf (ErrorFailedConnect cl.name "unable to ping redis server")) ∧
      (Redis.Ping cl c).2.sent = c.sent ++ [Directive.cmd [Value.str "PING"]]) ∧
    (storeClient.Do (Conn.fresh []) [Value.str "PING"]).1.err = none ∧
    (storeClient.Do (Conn.fresh []) [Value.str "PING"]).1.Text = ("PONG", none) ∧
    (storeClient.Do (Conn.fresh []) [Value.str "PING"]).1.String = "PING: PONG" ∧
    (Redis.Ping storeClient (Conn.fresh [])).1 ≠ none := by
  have general : ∀ (σ : Type) (cl : Client σ) (c : Conn σ),
      (Redis.Ping cl c).1
        = some (Error.errorf (ErrorFailedConnect cl.name "unable to ping redis server")) ∧
      (Redis.Ping cl c).2.sent = c.sent ++ [Directive.cmd [Value.str "PING"]] := by
    intro σ cl c
    have hne := Cmd.String_ping_ne_pong (cl.answer c.state [Value.str "PING"]).1.1
      (cl.answer c.state [Value.str "PING"]).1.2
    constructor <;> simp only [Redis.Ping, Client.Do, ne_eq, hne, not_false_eq_true, if_true]
  refine ⟨general, rfl, rfl, rfl, ?_⟩
  rw [(general Store storeClient (Conn.fresh [])).1]
  simp

end Cache
